import Mathlib

/-!
# Verification of `src/chain_spec.rs` (substrate-warmup)

Shallow embedding of the chain-spec module: deterministic identity
derivation (`authority_key`, `account_key`), the genesis assembler
(`testnet_genesis`) and the two profile builders (`dev`, `local`).

The cryptographic key derivation itself (`ed25519::Pair` /
`sr25519::Pair::from_standard_components` from `substrate_primitives`)
is library code not present in this repository, so it is modelled from
the spec; everything else is translated directly from
`src/chain_spec.rs`.
-/

namespace ChainSpecModel

/-- The two elliptic-curve signature schemes used by the two identity
kinds: ed25519 for Authority Identities (`AuraId`), sr25519 for Account
Identities (`AccountId`). -/
inductive Scheme where
  | ed25519
  | sr25519
deriving DecidableEq, Repr

/-- Modelled from the spec: `substrate_primitives::crypto::DeriveJunction`
is missing from the repository. A junction of a hierarchical derivation
path; `hard` is the non-watchable kind used by the deriver. -/
inductive DeriveJunction where
  | hard (s : String)
  | soft (s : String)
deriving DecidableEq, Repr

/-- `DeriveJunction::hard(s)` as called by the source. -/
def DeriveJunction.hardOf (s : String) : DeriveJunction := DeriveJunction.hard s

/-- Modelled from the spec: `substrate_primitives::crypto::DEV_PHRASE`,
the fixed publicly known development seed phrase, is missing from the
repository. Its concrete text is irrelevant to the claims; only that it
is one process-wide well-formed constant matters. -/
def DEV_PHRASE : String :=
  "bottom drive obey lake curtain smoke basket hold race lonely fit walk"

/-- Modelled from the spec: the public component of a derived key pair.
Per §4.1 the public key is the deterministic image of (scheme, seed
phrase, derivation path); the spec further postulates kind separation
(different schemes, never substitutable byte sequences) and label
sensitivity (distinct labels of one kind give distinct identities), so
the byte-level identity is modelled by that determining triple. -/
structure PublicKey where
  scheme : Scheme
  phrase : String
  junctions : List DeriveJunction
deriving DecidableEq, Repr

/-- `AuraId` from the `runtime` crate: an ed25519 public key. -/
abbrev AuraId := PublicKey

/-- `AccountId` from the `runtime` crate: an sr25519 public key. -/
abbrev AccountId := PublicKey

/-- Modelled from the spec: whether the seed material is malformed —
per §4.1 the only condition under which the cryptographic
key-generation step fails. An empty phrase stands for malformed seed
material; `DEV_PHRASE` is well formed. -/
def malformedSeed (phrase : String) : Bool := phrase.isEmpty

/-- Modelled from the spec: `Pair::from_standard_components` of
`substrate_primitives` is missing from the repository. It derives a key
pair from a seed phrase, an optional password and a derivation path,
failing exactly when the seed material is malformed; the model carries
only the data determining the public component. -/
def from_standard_components (scheme : Scheme) (phrase : String)
    (_password : Option String) (junctions : List DeriveJunction) :
    Except String PublicKey :=
  if malformedSeed phrase then
    Except.error "invalid seed phrase"
  else
    Except.ok { scheme := scheme, phrase := phrase, junctions := junctions }

/-- `authority_key`, generalised over the seed phrase: derive an ed25519
(Aura) key from one hard junction keyed by the label. In the source the
`Result` is unwrapped with `expect`, which aborts on failure; the model
keeps the `Except` so that the failure path is visible. -/
def authority_keyE (phrase s : String) : Except String AuraId :=
  from_standard_components Scheme.ed25519 phrase none
    [DeriveJunction.hard s]

/-- `account_key`, generalised over the seed phrase: derive an sr25519
key from one hard junction keyed by the label. -/
def account_keyE (phrase s : String) : Except String AccountId :=
  from_standard_components Scheme.sr25519 phrase none
    [DeriveJunction.hard s]

/-- `authority_key(s)` from the source: `DEV_PHRASE` with a single hard
junction from `s`, result unwrapped (the `expect` never fires because
`DEV_PHRASE` is well formed). -/
def authority_key (s : String) : AuraId :=
  { scheme := Scheme.ed25519, phrase := DEV_PHRASE,
    junctions := [DeriveJunction.hard s] }

/-- `account_key(s)` from the source. -/
def account_key (s : String) : AccountId :=
  { scheme := Scheme.sr25519, phrase := DEV_PHRASE,
    junctions := [DeriveJunction.hard s] }

/-- Modelled from the spec: `runtime::WASM_BINARY`, the compiled runtime
program blob, is an opaque byte sequence produced by an external build
step and missing from the repository; a stand-in concrete byte list
(the wasm magic) represents it. -/
def WASM_BINARY : List Nat := [0x00, 0x61, 0x73, 0x6d]

/-- `SystemConfig` of the `runtime` crate (the fields set by
`testnet_genesis`); `changes_trie_config` defaults to `None`. -/
structure SystemConfig where
  code : List Nat
  changes_trie_config : Option Unit
deriving DecidableEq, Repr

/-- `AuraConfig`: the initial consensus authority set. -/
structure AuraConfig where
  authorities : List AuraId
deriving DecidableEq, Repr

/-- `IndicesConfig`: the accounts registered in the index table. -/
structure IndicesConfig where
  ids : List AccountId
deriving DecidableEq, Repr

/-- `BalancesConfig`: initial balances and vesting schedules. Balances
are `u128` in the runtime; `2^60` is far below `2^128` so plain `Nat`
arithmetic agrees with the machine arithmetic here. -/
structure BalancesConfig where
  balances : List (AccountId × Nat)
  vesting : List (AccountId × Nat × Nat × Nat)
deriving DecidableEq, Repr

/-- `SudoConfig`: the administrative (root) key. -/
structure SudoConfig where
  key : AccountId
deriving DecidableEq, Repr

/-- `GenesisConfig` of the `runtime` crate, with the five module
sections populated by `testnet_genesis`. -/
structure GenesisConfig where
  system : Option SystemConfig
  srml_aura : Option AuraConfig
  srml_indices : Option IndicesConfig
  srml_balances : Option BalancesConfig
  srml_sudo : Option SudoConfig
deriving DecidableEq, Repr

/-- `testnet_genesis` from the source: assemble the genesis
configuration from the derived identities. -/
def testnet_genesis (initial_authorities : List AuraId)
    (endowed_accounts : List AccountId) (root_key : AccountId) :
    GenesisConfig :=
  { system := some { code := WASM_BINARY, changes_trie_config := none }
  , srml_aura := some { authorities := initial_authorities }
  , srml_indices := some { ids := endowed_accounts }
  , srml_balances := some
      { balances := endowed_accounts.map (fun k => (k, 1 <<< 60))
      , vesting := [] }
  , srml_sudo := some { key := root_key } }

/-- `substrate_service::ChainSpec`, restricted to what
`ChainSpec::from_genesis` receives in this file: display name, id, the
genesis constructor's result (the constructor is pure, so it is
evaluated eagerly), boot nodes, and the four trailing `None` options
(telemetry endpoints, protocol id, consensus engine, properties). -/
structure ChainSpec (G : Type) where
  name : String
  id : String
  genesis : G
  boot_nodes : List String
  telemetry_endpoints : Option Unit
  protocol_id : Option String
  consensus_engine : Option String
  properties : Option Unit

/-- `ChainSpec::from_genesis` as called by the profile builders. -/
def ChainSpec.from_genesis {G : Type} (name id : String)
    (constructor : Unit → G) (boot_nodes : List String)
    (telemetry_endpoints : Option Unit) (protocol_id : Option String)
    (consensus_engine : Option String) (properties : Option Unit) :
    ChainSpec G :=
  { name := name, id := id, genesis := constructor ()
  , boot_nodes := boot_nodes
  , telemetry_endpoints := telemetry_endpoints
  , protocol_id := protocol_id
  , consensus_engine := consensus_engine
  , properties := properties }

/-- `dev()` from the source: the development-chain profile. -/
def dev : ChainSpec GenesisConfig :=
  ChainSpec.from_genesis "Development" "dev"
    (fun _ =>
      testnet_genesis
        [authority_key "Alice"]
        [account_key "Alice"]
        (account_key "Alice"))
    [] none none none none

/-- `local()` from the source (renamed: `local` is a Lean keyword): the
local-testnet profile. -/
def local_testnet : ChainSpec GenesisConfig :=
  ChainSpec.from_genesis "Local Testnet" "local_testnet"
    (fun _ =>
      testnet_genesis
        [authority_key "Alice", authority_key "Bob"]
        [ account_key "Alice", account_key "Bob", account_key "Charlie"
        , account_key "Dave", account_key "Eve", account_key "Ferdie"]
        (account_key "Alice"))
    [] none none none none

/-- The local-testnet genesis constructor with the seed phrase explicit
and each `expect` modelled as `Except` propagation: the first failing
derivation aborts the whole construction, exactly as a panic aborts the
closure in the source. -/
def local_genesis_of (phrase : String) : Except String GenesisConfig := do
  let a1 ← authority_keyE phrase "Alice"
  let a2 ← authority_keyE phrase "Bob"
  let k1 ← account_keyE phrase "Alice"
  let k2 ← account_keyE phrase "Bob"
  let k3 ← account_keyE phrase "Charlie"
  let k4 ← account_keyE phrase "Dave"
  let k5 ← account_keyE phrase "Eve"
  let k6 ← account_keyE phrase "Ferdie"
  pure (testnet_genesis [a1, a2] [k1, k2, k3, k4, k5, k6] k1)

/-- `authority_key` generalised over the phrase (the success value of
`authority_keyE`). -/
def authority_key_of (phrase s : String) : AuraId :=
  { scheme := Scheme.ed25519, phrase := phrase,
    junctions := [DeriveJunction.hard s] }

/-- `account_key` generalised over the phrase. -/
def account_key_of (phrase s : String) : AccountId :=
  { scheme := Scheme.sr25519, phrase := phrase,
    junctions := [DeriveJunction.hard s] }

/-- Does the administrative (sudo) key of a genesis configuration lie in
its endowed-account (indices) set? -/
def adminInEndowed (g : GenesisConfig) : Bool :=
  match g.srml_sudo, g.srml_indices with
  | some su, some ix => su.key ∈ ix.ids
  | _, _ => false

/-! ## Theorems -/

/-- C1: deriving twice with the same label and kind yields bit-identical
output — any two successful results of `authority_keyE` (resp.
`account_keyE`) at the same phrase and label are equal. -/
theorem derive_twice_identical (phrase s : String) (a a' : AuraId)
    (k k' : AccountId)
    (ha : authority_keyE phrase s = Except.ok a)
    (ha' : authority_keyE phrase s = Except.ok a')
    (hk : account_keyE phrase s = Except.ok k)
    (hk' : account_keyE phrase s = Except.ok k') :
    a = a' ∧ k = k' := by
  refine ⟨?_, ?_⟩
  · have := ha.symm.trans ha'
    exact Except.ok.inj this
  · have := hk.symm.trans hk'
    exact Except.ok.inj this

/-- Witness for C1 at phrase `DEV_PHRASE`, label `"Alice"`. -/
theorem derive_twice_identical_witness :
    authority_key "Alice" = authority_key "Alice"
  ∧ account_key "Alice" = account_key "Alice" :=
  derive_twice_identical DEV_PHRASE "Alice"
    (authority_key "Alice") (authority_key "Alice")
    (account_key "Alice") (account_key "Alice")
    (by rfl) (by rfl) (by rfl) (by rfl)

/-- C2: `testnet_genesis` preserves the authority list in length and
order, registers exactly the input accounts as indices ids and as
balances keys, records the supplied root key as sudo key, and embeds
the runtime blob unmodified. -/
theorem testnet_genesis_assembly (auths : List AuraId)
    (accts : List AccountId) (root : AccountId) :
    (testnet_genesis auths accts root).srml_aura
      = some { authorities := auths }
  ∧ (testnet_genesis auths accts root).srml_indices = some { ids := accts }
  ∧ (testnet_genesis auths accts root).srml_balances
      = some { balances := accts.map (fun k => (k, 1 <<< 60))
             , vesting := [] }
  ∧ (accts.map (fun k => (k, (1 : Nat) <<< 60))).map Prod.fst = accts
  ∧ (testnet_genesis auths accts root).srml_sudo = some { key := root }
  ∧ (testnet_genesis auths accts root).system
      = some { code := WASM_BINARY, changes_trie_config := none } := by
  refine ⟨rfl, rfl, rfl, ?_, rfl, rfl⟩
  simp [Function.comp_def]

/-- C3: every endowed account receives the same fixed balance `2 ^ 60`,
the multiset of balance keys is exactly the input account list (nothing
omitted, nothing duplicated), and the vesting list is empty. -/
theorem balances_uniform (auths : List AuraId) (accts : List AccountId)
    (root : AccountId) :
    (testnet_genesis auths accts root).srml_balances
      = some { balances := accts.map (fun k => (k, 2 ^ 60))
             , vesting := [] }
  ∧ (accts.map (fun k => (k, (2 : Nat) ^ 60))).map Prod.snd
      = List.replicate accts.length (2 ^ 60)
  ∧ ∀ a : AccountId,
      ((accts.map (fun k => (k, (2 : Nat) ^ 60))).map Prod.fst).count a
        = accts.count a := by
  refine ⟨?_, ?_, ?_⟩
  · simp only [testnet_genesis]
    norm_num [Nat.shiftLeft_eq]
  · induction accts with
    | nil => rfl
    | cons x xs ih => simpa [List.replicate_succ] using ih
  · intro a
    simp [Function.comp_def]

/-- C4: for any label, the Authority Identity and the Account Identity
derived from it are never equal, the two kinds using different schemes. -/
theorem kind_separation (s : String) :
    authority_key s ≠ account_key s := by
  simp [authority_key, account_key]

/-- C5: distinct labels of the same kind derive distinct identities; in
particular the identities of the fixed test-label set are pairwise
distinct for each kind. -/
theorem label_sensitivity (s t : String) (h : s ≠ t) :
    authority_key s ≠ authority_key t
  ∧ account_key s ≠ account_key t
  ∧ (["Alice", "Bob"].map authority_key).Nodup
  ∧ (["Alice", "Bob", "Charlie", "Dave", "Eve", "Ferdie"].map
      account_key).Nodup := by
  refine ⟨?_, ?_, by decide, by decide⟩
  · simp [authority_key, h]
  · simp [account_key, h]

/-- Witness for C5 at labels `"Alice"` and `"Bob"`. -/
theorem label_sensitivity_witness :
    authority_key "Alice" ≠ authority_key "Bob"
  ∧ account_key "Alice" ≠ account_key "Bob"
  ∧ (["Alice", "Bob"].map authority_key).Nodup
  ∧ (["Alice", "Bob", "Charlie", "Dave", "Eve", "Ferdie"].map
      account_key).Nodup :=
  label_sensitivity "Alice" "Bob" (by decide)

/-- C6: in both shipped profiles the administrative (sudo) key is a
member of the endowed-accounts (indices) set. -/
theorem admin_key_endowed_shipped :
    adminInEndowed dev.genesis = true
  ∧ adminInEndowed local_testnet.genesis = true := by
  constructor <;> decide

/-- C7 counterexample: assembling with an administrative key outside
the endowed set is NOT detected — `testnet_genesis` silently returns a
full genesis configuration recording the violating key. -/
theorem no_admin_check_counterexample :
    adminInEndowed
      (testnet_genesis [authority_key "Alice"] [account_key "Alice"]
        (account_key "Eve")) = false
  ∧ (testnet_genesis [authority_key "Alice"] [account_key "Alice"]
      (account_key "Eve")).srml_sudo
      = some { key := account_key "Eve" } := by
  constructor
  · decide
  · rfl

/-- C7 amended: `testnet_genesis` performs no construction-time
membership check; any root key, even one outside the endowed set, is
accepted and recorded unchanged in the produced genesis state. -/
theorem no_admin_check (auths : List AuraId) (accts : List AccountId)
    (root : AccountId) (h : root ∉ accts) :
    (testnet_genesis auths accts root).srml_sudo = some { key := root }
  ∧ adminInEndowed (testnet_genesis auths accts root) = false := by
  refine ⟨rfl, ?_⟩
  simp [adminInEndowed, testnet_genesis, h]

/-- Witness for the amended C7. -/
theorem no_admin_check_witness :
    (testnet_genesis [authority_key "Alice"] [account_key "Alice"]
      (account_key "Bob")).srml_sudo = some { key := account_key "Bob" }
  ∧ adminInEndowed
      (testnet_genesis [authority_key "Alice"] [account_key "Alice"]
        (account_key "Bob")) = false :=
  no_admin_check [authority_key "Alice"] [account_key "Alice"]
    (account_key "Bob") (by decide)

/-- C8: derivation fails exactly when the underlying key-generation
step rejects the seed material, and a failure aborts the whole
local-testnet genesis construction — the result is an error carrying no
partial genesis state, while on success every identity is derived and
used. -/
theorem derivation_failure_aborts (phrase s : String) :
    (authority_keyE phrase s
      = if malformedSeed phrase then Except.error "invalid seed phrase"
        else Except.ok (authority_key_of phrase s))
  ∧ (account_keyE phrase s
      = if malformedSeed phrase then Except.error "invalid seed phrase"
        else Except.ok (account_key_of phrase s))
  ∧ (local_genesis_of phrase
      = if malformedSeed phrase then Except.error "invalid seed phrase"
        else Except.ok (testnet_genesis
          [authority_key_of phrase "Alice", authority_key_of phrase "Bob"]
          [ account_key_of phrase "Alice", account_key_of phrase "Bob"
          , account_key_of phrase "Charlie", account_key_of phrase "Dave"
          , account_key_of phrase "Eve", account_key_of phrase "Ferdie"]
          (account_key_of phrase "Alice"))) := by
  cases h : malformedSeed phrase with
  | true =>
    refine ⟨?_, ?_, ?_⟩
    all_goals
      simp only [authority_keyE, account_keyE, local_genesis_of,
        from_standard_components, h]
      rfl
  | false =>
    refine ⟨?_, ?_, ?_⟩
    all_goals
      simp only [authority_keyE, account_keyE, local_genesis_of,
        from_standard_components, authority_key_of, account_key_of, h]
      try rfl

/-- C9: the local-testnet profile has exactly the two authorities
derived from "Alice" and "Bob" in that order, exactly the six pairwise
distinct endowed accounts derived from the six test labels, with the
"Alice"-derived identities present in both sets and the account one
recorded as administrative key. -/
theorem local_testnet_profile :
    local_testnet.genesis.srml_aura
      = some { authorities := [authority_key "Alice", authority_key "Bob"] }
  ∧ local_testnet.genesis.srml_indices
      = some { ids := [ account_key "Alice", account_key "Bob"
                      , account_key "Charlie", account_key "Dave"
                      , account_key "Eve", account_key "Ferdie"] }
  ∧ [ account_key "Alice", account_key "Bob", account_key "Charlie"
    , account_key "Dave", account_key "Eve", account_key "Ferdie"].Nodup
  ∧ authority_key "Alice" ∈ [authority_key "Alice", authority_key "Bob"]
  ∧ account_key "Alice"
      ∈ [ account_key "Alice", account_key "Bob", account_key "Charlie"
        , account_key "Dave", account_key "Eve", account_key "Ferdie"]
  ∧ local_testnet.genesis.srml_sudo
      = some { key := account_key "Alice" } := by
  refine ⟨rfl, rfl, by decide, ?_, ?_, rfl⟩
  · exact List.mem_cons_self _ _
  · exact List.mem_cons_self _ _

/-- C10: the fixed initial balance assigned by `testnet_genesis` to
every endowed account is exactly `2 ^ 60` (the source's `1 << 60`),
the same value for every account and every input. -/
theorem fixed_balance_value (auths : List AuraId)
    (accts : List AccountId) (root : AccountId) :
    (testnet_genesis auths accts root).srml_balances
      = some { balances := accts.map (fun k => (k, 2 ^ 60))
             , vesting := [] }
  ∧ (1 : Nat) <<< 60 = 2 ^ 60
  ∧ (2 : Nat) ^ 60 = 1152921504606846976 := by
  refine ⟨?_, by norm_num [Nat.shiftLeft_eq], by norm_num⟩
  simp only [testnet_genesis]
  norm_num [Nat.shiftLeft_eq]

end ChainSpecModel
